import Mathlib

/-!
Verification development for the `vacuum-ballet` repository (`src/main.py`).

The Python source is shallowly embedded: pure geometry helpers become Lean
functions over `Int` pairs with exact-real trigonometry standing in for the
float computations, `int(...)` truncation-toward-zero becomes `truncInt`,
the asynchronous telemetry environment (map parses, command transport)
becomes an explicit oracle record `DanceEnv`, and the `dance` coroutine
becomes a function from that oracle to the ordered trace of external
interactions (connect, map-parse requests, commands, disconnect) plus an
optional error, mirroring the source's `try`/`finally` structure.
-/

namespace VacuumBallet

/-- Source alias `Point = Tuple[int, int]`: map coordinates in mm. -/
abbrev Point := Int × Int

/-- Python `int(x)` on a float: truncation toward zero. -/
noncomputable def truncInt (x : ℝ) : ℤ := if 0 ≤ x then ⌊x⌋ else ⌈x⌉

/-- Squared Euclidean distance between two points (exact integer form of the
source's `((dx)**2 + (dy)**2) ** 0.5` before taking the square root). -/
def distSq (p q : Point) : Int := (p.1 - q.1) ^ 2 + (p.2 - q.2) ^ 2

/-- The source's arrival test `distance_mm <= threshold_mm`, rendered exactly
over the integers: `sqrt (distSq p q) ≤ thr` iff `0 ≤ thr ∧ distSq p q ≤ thr²`
(see `withinThreshold_iff_sqrt`). -/
def withinThreshold (p q : Point) (thr : Int) : Bool :=
  decide (0 ≤ thr) && decide (distSq p q ≤ thr * thr)

theorem distSq_nonneg (p q : Point) : 0 ≤ distSq p q :=
  add_nonneg (sq_nonneg _) (sq_nonneg _)

/-- Exactness of the integer rendering of the source's real-valued
`sqrt(dx² + dy²) ≤ threshold` comparison. -/
theorem withinThreshold_iff_sqrt (p q : Point) (thr : Int) :
    withinThreshold p q thr = true ↔
      Real.sqrt ((distSq p q : ℝ)) ≤ (thr : ℝ) := by
  rw [withinThreshold]
  simp only [Bool.and_eq_true, decide_eq_true_eq]
  constructor
  · rintro ⟨h0, hle⟩
    have h0R : (0 : ℝ) ≤ (thr : ℝ) := by exact_mod_cast h0
    have hleR : ((distSq p q : ℝ)) ≤ (thr : ℝ) * (thr : ℝ) := by exact_mod_cast hle
    calc Real.sqrt ((distSq p q : ℝ)) ≤ Real.sqrt ((thr : ℝ) * (thr : ℝ)) :=
          Real.sqrt_le_sqrt hleR
      _ = (thr : ℝ) := Real.sqrt_mul_self h0R
  · intro h
    have hd : (0 : ℝ) ≤ ((distSq p q : ℝ)) := by exact_mod_cast distSq_nonneg p q
    have h0R : (0 : ℝ) ≤ (thr : ℝ) := le_trans (Real.sqrt_nonneg _) h
    constructor
    · exact_mod_cast h0R
    · have := Real.sq_sqrt hd
      have hsq : ((distSq p q : ℝ)) ≤ (thr : ℝ) * (thr : ℝ) := by
        calc ((distSq p q : ℝ)) = Real.sqrt ((distSq p q : ℝ)) * Real.sqrt ((distSq p q : ℝ)) := by
              rw [Real.mul_self_sqrt hd]
          _ ≤ (thr : ℝ) * (thr : ℝ) :=
              mul_le_mul h h (Real.sqrt_nonneg _) h0R
      exact_mod_cast hsq

/-- Truncation of an integer cast is that integer. -/
theorem truncInt_intCast (n : ℤ) : truncInt (n : ℝ) = n := by
  unfold truncInt
  split <;> simp

-- ---------------------------------------------------------------------------
-- Geometry helpers (source lines 52–144)
-- ---------------------------------------------------------------------------

/-- Point `i` of `circle`: angle `t = 2π·i/steps`,
`(int(cx + r·cos t), int(cy + r·sin t))`. -/
noncomputable def circlePoint (center : Point) (radius_mm : Int) (steps : Nat)
    (i : Nat) : Point :=
  let t : ℝ := 2 * Real.pi * i / steps
  (truncInt (center.1 + radius_mm * Real.cos t),
   truncInt (center.2 + radius_mm * Real.sin t))

/-- Source function `circle(center, radius_mm, steps=20)`: one point per
`i in range(steps)`. -/
noncomputable def circle (center : Point) (radius_mm : Int) (steps : Nat) :
    List Point :=
  (List.range steps).map (circlePoint center radius_mm steps)

/-- Source function `square(center, half_mm=600)`: five corner points,
closing the path. -/
def square (center : Point) (half_mm : Int) : List Point :=
  [(center.1 - half_mm, center.2 - half_mm),
   (center.1 + half_mm, center.2 - half_mm),
   (center.1 + half_mm, center.2 + half_mm),
   (center.1 - half_mm, center.2 + half_mm),
   (center.1 - half_mm, center.2 - half_mm)]

/-- Point `i` of `figure_eight`: `t = 2π·i/(steps-1)`,
`x = cx + r·sin t`, `y = cy + r·sin t·cos t`. -/
noncomputable def figureEightPoint (center : Point) (radius_mm : Int)
    (steps : Nat) (i : Nat) : Point :=
  let t : ℝ := 2 * Real.pi * i / ((steps : ℝ) - 1)
  (truncInt (center.1 + radius_mm * Real.sin t),
   truncInt (center.2 + radius_mm * Real.sin t * Real.cos t))

/-- The iteration of the `figure_eight` generator body over the remaining
indices: each iteration divides by `steps - 1`, so with `steps = 1` the very
first iteration raises Python's `ZeroDivisionError` (for a nonempty index
list); otherwise the point for the head index is yielded and iteration
continues. -/
noncomputable def figureEightGo (center : Point) (radius_mm : Int)
    (steps : Nat) : List Nat → Except String (List Point)
  | [] => Except.ok []
  | i :: rest =>
      if (steps : Int) - 1 = 0 then Except.error "float division by zero"
      else
        match figureEightGo center radius_mm steps rest with
        | Except.ok l => Except.ok (figureEightPoint center radius_mm steps i :: l)
        | Except.error e => Except.error e

/-- Source function `figure_eight(center, radius_mm=800, steps=24)`, with
Python's `ZeroDivisionError` made explicit in an `Except`. -/
noncomputable def figure_eight (center : Point) (radius_mm : Int)
    (steps : Nat) : Except String (List Point) :=
  figureEightGo center radius_mm steps (List.range steps)

/-- Point `i` of `lissajous`: `t = 2π·i/steps`,
`x = cx + ax·sin(a·t + delta)`, `y = cy + ay·sin(b·t)`. -/
noncomputable def lissajousPoint (center : Point) (ax ay : Int) (a b : Int)
    (delta : ℝ) (steps : Nat) (i : Nat) : Point :=
  let t : ℝ := 2 * Real.pi * i / steps
  (truncInt (center.1 + ax * Real.sin (a * t + delta)),
   truncInt (center.2 + ay * Real.sin (b * t)))

/-- Source function `lissajous(center, ax=800, ay=600, a=3, b=2, delta=π/2, steps=32)`. -/
noncomputable def lissajous (center : Point) (ax ay : Int) (a b : Int)
    (delta : ℝ) (steps : Nat) : List Point :=
  (List.range steps).map (lissajousPoint center ax ay a b delta steps)

/-- Python `random.uniform(a, b)` in terms of a raw draw `u ∈ [0,1)`. -/
def uniformR (a b u : ℝ) : ℝ := a + (b - a) * u

/-- Point `i` of `spin_crazy`.  The source seeds Python's global PRNG with the
fixed seed 42; the embedding abstracts that deterministic stream as an oracle
`rand i k`, the `k`-th raw draw consumed during step `i` (draws 0–4 feed the
five `uniform` calls, draw 5 the `random()` jerk test, draws 6–7 the
conditional jerk `uniform` calls). -/
noncomputable def spinCrazyPoint (rand : Nat → Nat → ℝ) (center : Point)
    (radius_mm : Int) (steps : Nat) (i : Nat) : Point :=
  let base_angle : ℝ := 2 * Real.pi * i / steps * 3
  let jerk_factor := uniformR 0.3 1.8 (rand i 0)
  let angle_jitter := uniformR (-(Real.pi / 2)) (Real.pi / 2) (rand i 1)
  let actual_angle := base_angle + angle_jitter
  let current_radius := radius_mm * jerk_factor * uniformR 0.2 1.0 (rand i 2)
  let jerk_x := uniformR (-(radius_mm * 0.3)) (radius_mm * 0.3) (rand i 3)
  let jerk_y := uniformR (-(radius_mm * 0.3)) (radius_mm * 0.3) (rand i 4)
  let x := center.1 + current_radius * Real.cos actual_angle + jerk_x
  let y := center.2 + current_radius * Real.sin actual_angle + jerk_y
  if rand i 5 < 0.2 then
    let jerk_distance := radius_mm * uniformR 0.5 1.2 (rand i 6)
    let jerk_angle := uniformR 0 (2 * Real.pi) (rand i 7)
    (truncInt (center.1 + jerk_distance * Real.cos jerk_angle),
     truncInt (center.2 + jerk_distance * Real.sin jerk_angle))
  else
    (truncInt x, truncInt y)

/-- Source function `spin_crazy(center, radius_mm=400, steps=20)` over the abstracted draw
oracle. -/
noncomputable def spin_crazy (rand : Nat → Nat → ℝ) (center : Point)
    (radius_mm : Int) (steps : Nat) : List Point :=
  (List.range steps).map (spinCrazyPoint rand center radius_mm steps)

-- ---------------------------------------------------------------------------
-- Roborock helpers: radius clamp, telemetry reads, arrival polling
-- ---------------------------------------------------------------------------

/-- Source function `_clamp_radius(size)` (lines 514–520) with the two env-derived
bounds made explicit parameters: `max(min_mm, min(size, max_mm))`. -/
def clamp_radius (min_mm max_mm size : Int) : Int :=
  max min_mm (min size max_mm)

/-- The fields of one successfully parsed map payload that the source reads:
`data.charger` and `data.vacuum_position`.  A failed `_parse_map_data` call is
`none` at the use sites below. -/
structure MapData where
  charger : Option Point
  vacuum : Option Point
  deriving DecidableEq

/-- Source function `_vacuum_position` (lines 499–511) applied to the result of one
`_parse_map_data` call. -/
def vacuum_position (parse : Option MapData) : Option Point :=
  match parse with
  | none => none
  | some data => data.vacuum

/-- Source function `_charger_position` (lines 382–387) applied to the result of one
`_parse_map_data` call. -/
def charger_position (parse : Option MapData) : Option Point :=
  match parse with
  | none => none
  | some data => data.charger

/-- Source function `_map_center` (lines 369–379) applied to the result of one
`_parse_map_data` call: charger first, then vacuum position. -/
def map_center (parse : Option MapData) : Option Point :=
  match parse with
  | none => none
  | some data =>
      match data.charger with
      | some c => some c
      | none => data.vacuum

/-- One run of the `_wait_until_near` polling loop (source lines 523–553).
Real time is discretized: `parses` lists the successive `_parse_map_data`
results obtainable before the deadline (one per loop iteration; exhaustion of
the list is the deadline passing).  Returns the boolean result together with
the number of samples actually consumed. -/
def waitRun (parses : List (Option MapData)) (target : Point) (thr : Int) :
    Bool × Nat :=
  match parses with
  | [] => (false, 0)
  | parse :: rest =>
      match vacuum_position parse with
      | none =>
          let r := waitRun rest target thr
          (r.1, r.2 + 1)
      | some pos =>
          if withinThreshold pos target thr then (true, 1)
          else
            let r := waitRun rest target thr
            (r.1, r.2 + 1)

/-- Source function `_wait_until_near(client, target, threshold_mm, timeout_s, poll_s)`:
the boolean outcome of the polling loop. -/
def wait_until_near (parses : List (Option MapData)) (target : Point)
    (thr : Int) : Bool :=
  (waitRun parses target thr).1

/-- Source function `_offset_center_from_dock(dock, radius_mm)` (lines 447–456) with
the env-derived `buffer_mm` (default 300) made an explicit parameter:
`(dock.x, dock.y + buffer_mm + radius_mm)`. -/
def offset_center_from_dock (buffer_mm : Int) (dock : Point)
    (radius_mm : Int) : Point :=
  (dock.1, dock.2 + (buffer_mm + radius_mm))

-- ---------------------------------------------------------------------------
-- The dance run: oracle environment, external-interaction trace, outcome
-- ---------------------------------------------------------------------------

/-- One observable external interaction of a dance run. -/
inductive Event where
  /-- Call `_client()` succeeded: login plus `async_connect`. -/
  | connect : Event
  /-- One `_parse_map_data` round-trip (telemetry request). -/
  | parseMap : Event
  /-- One `get_status` round-trip (telemetry request). -/
  | getStatus : Event
  /-- Call `client.send_command(name, payload)`. -/
  | send (name : String) (payload : List Int) : Event
  /-- Call `client.async_disconnect()`. -/
  | disconnect : Event
  deriving DecidableEq

/-- How a dance run ends when it does not succeed. -/
inductive DanceError where
  /-- The `raise ValueError("Unknown pattern")` branch. -/
  | unknownPattern : DanceError
  /-- An exception raised by a goto `send_command` dispatch in the loop. -/
  | transport : DanceError
  deriving DecidableEq

/-- The oracle environment of one `dance` run: configuration values read from
the process environment, and the results the external transport/telemetry
layer would return for each call the body makes, indexed by call site (the
source awaits each of these independently, so their results are independent
oracles). -/
structure DanceEnv where
  /-- Integer-valued `os.getenv` lookups (`none` = variable unset). -/
  env : String → Option Int
  /-- Flag `ENABLE_GOTO_PREFLIGHT` truthiness (source line 466). -/
  preflightEnabled : Bool
  /-- Value `st.state_name or ""` as read during preflight (`""` when the
  `get_status` call raised). -/
  statusState : String
  /-- Result of the `_parse_map_data` call inside `_charger_position`. -/
  parseCharger : Option MapData
  /-- Result of the `_parse_map_data` call inside the center-resolution
  `_vacuum_position` call. -/
  parseVacuum : Option MapData
  /-- Result of the `_parse_map_data` call inside `_map_center`. -/
  parseMapCenter : Option MapData
  /-- Result of the pre-check `_vacuum_position` parse for waypoint `i`. -/
  parsePre : Nat → Option MapData
  /-- The `_parse_map_data` results available to `_wait_until_near` during
  waypoint `i`, bounded by that waypoint's deadline. -/
  pollParses : Nat → List (Option MapData)
  /-- Whether the goto `send_command` dispatch for waypoint `i` raises. -/
  gotoFails : Nat → Bool
  /-- Abstracted PRNG draw stream for `spin_crazy` (seeded `random`). -/
  rand : Nat → Nat → ℝ

/-- Lookup `int(os.getenv(key, default))` for integer-valued variables. -/
def getenvInt (env : String → Option Int) (key : String) (dflt : Int) : Int :=
  (env key).getD dflt

/-- The center-resolution cascade of `dance` (source lines 568–593): dock
position offset away from the dock, else current robot position, else map
center, else the `DEFAULT_CENTER_X`/`DEFAULT_CENTER_Y` fallback (defaults 0).
Returns the chosen center together with the telemetry requests made. -/
def resolveCenter (e : DanceEnv) (size : Int) : Point × List Event :=
  match charger_position e.parseCharger with
  | some dock =>
      (offset_center_from_dock (getenvInt e.env "DOCK_BUFFER_MM" 300) dock size,
       [Event.parseMap])
  | none =>
      match vacuum_position e.parseVacuum with
      | some current_pos => (current_pos, [Event.parseMap, Event.parseMap])
      | none =>
          match map_center e.parseMapCenter with
          | some center =>
              (center, [Event.parseMap, Event.parseMap, Event.parseMap])
          | none =>
              ((getenvInt e.env "DEFAULT_CENTER_X" 0,
                getenvInt e.env "DEFAULT_CENTER_Y" 0),
               [Event.parseMap, Event.parseMap, Event.parseMap])

/-- The state names that skip the preflight sequence (source line 476). -/
def no_op_states : List String :=
  ["going_to_target", "spot", "cleaning", "returning"]

/-- Source function `_ensure_ready_for_goto` (lines 459–496) as the trace of external
interactions it performs; the wake/start/pause sends are best-effort, so a
failing send changes nothing observable beyond the attempt itself. -/
def ensure_ready_for_goto (enabled : Bool) (state : String) : List Event :=
  if enabled = false then []
  else if state.toLower ∈ no_op_states then [Event.getStatus]
  else
    [Event.getStatus,
     Event.send "APP_WAKEUP_ROBOT" [],
     Event.send "APP_START" [],
     Event.send "APP_PAUSE" []]

/-- The per-waypoint loop of `dance` (source lines 628–660), producing the
trace of external interactions and the optional propagated dispatch error.
For each waypoint: pre-check parse; skip if the position is available and
within `arrival` of the waypoint; otherwise dispatch the goto (which may
raise, aborting the run) and poll for arrival.  `i` is the 0-based waypoint
index into the oracle streams. -/
def danceLoop (e : DanceEnv) (arrival : Int) :
    List Point → Nat → List Event × Option DanceError
  | [], _ => ([], none)
  | (px, py) :: rest, i =>
      let skip :=
        match vacuum_position (e.parsePre i) with
        | some current_pos => withinThreshold current_pos (px, py) arrival
        | none => false
      if skip then
        let r := danceLoop e arrival rest (i + 1)
        (Event.parseMap :: r.1, r.2)
      else if e.gotoFails i then
        ([Event.parseMap, Event.send "APP_GOTO_TARGET" [px, py]],
         some DanceError.transport)
      else
        let polls := (waitRun (e.pollParses i) (px, py) arrival).2
        let r := danceLoop e arrival rest (i + 1)
        (Event.parseMap :: Event.send "APP_GOTO_TARGET" [px, py] ::
          (List.replicate polls Event.parseMap ++ r.1), r.2)

/-- The five pattern names `dance` recognizes (source lines 602–613). -/
def knownPatterns : List String :=
  ["circle", "square", "figure8", "lissajous", "spin_crazy"]

/-- The pattern dispatch of `dance` (source lines 602–613): the waypoint list
for a known pattern, `none` for the `raise ValueError("Unknown pattern")`
branch.  `figure_eight` is called with its default `steps=24`, where its
division-by-zero branch is unreachable (`figure_eight_ok`); the `.error` arm
is therefore dead code. -/
noncomputable def dancePattern (e : DanceEnv) (pattern : String)
    (center : Point) (size : Int) : Option (List Point) :=
  if pattern = "circle" then some (circle center size 20)
  else if pattern = "square" then some (square center size)
  else if pattern = "figure8" then
    match figure_eight center size 24 with
    | Except.ok l => some l
    | Except.error _ => some []
  else if pattern = "lissajous" then
    some (lissajous center size size 3 2 (Real.pi / 2) 32)
  else if pattern = "spin_crazy" then some (spin_crazy e.rand center size 20)
  else none

/-- Source function `dance(pattern, size, beat_ms)` (lines 556–665) as the ordered
trace of its external interactions plus its outcome.  The run starts after a
successful `_client()` (the `Event.connect` at the head); the `finally:`
clause appends `Event.disconnect` on every path out of the body.  Sleeps and
console/log output have no external effect and are not modeled. -/
noncomputable def dance (e : DanceEnv) (pattern : String) (size : Int)
    (beat_ms : Int) : List Event × Option DanceError :=
  let size' := clamp_radius (getenvInt e.env "MIN_DANCE_RADIUS_MM" 200)
    (getenvInt e.env "MAX_DANCE_RADIUS_MM" 1200) size
  let centerResult := resolveCenter e size'
  match dancePattern e pattern centerResult.1 size' with
  | none =>
      (Event.connect :: (centerResult.2 ++ [Event.disconnect]),
       some DanceError.unknownPattern)
  | some waypoints =>
      let arrival := getenvInt e.env "ARRIVAL_THRESHOLD_MM" 250
      let preflight := ensure_ready_for_goto e.preflightEnabled e.statusState
      let loopResult := danceLoop e arrival waypoints 0
      (Event.connect :: (centerResult.2 ++ preflight ++ loopResult.1 ++
        [Event.disconnect]), loopResult.2)

/-- Number of goto dispatches in a trace. -/
def gotoCount (events : List Event) : Nat :=
  events.countP fun ev =>
    match ev with
    | Event.send "APP_GOTO_TARGET" _ => true
    | _ => false

/-- The fallback center the `where` command prints when no map center is
available (source lines 311–314): note the different defaults from `dance`. -/
def whereFallbackCenter (env : String → Option Int) : Point :=
  (getenvInt env "DEFAULT_CENTER_X" 32000, getenvInt env "DEFAULT_CENTER_Y" 27000)

-- ---------------------------------------------------------------------------
-- Supporting lemmas
-- ---------------------------------------------------------------------------

/-- With `steps ≠ 1` the division-by-zero branch of the `figure_eight` body
is never taken and the iteration yields exactly the mapped points. -/
theorem figureEightGo_ok (center : Point) (radius_mm : Int) (steps : Nat)
    (h : (steps : Int) - 1 ≠ 0) (l : List Nat) :
    figureEightGo center radius_mm steps l =
      Except.ok (l.map (figureEightPoint center radius_mm steps)) := by
  induction l with
  | nil => rfl
  | cons i rest ih => simp [figureEightGo, h, ih]

/-- On `2 ≤ steps`, `figure_eight` succeeds with one point per index. -/
theorem figure_eight_ok (center : Point) (radius_mm : Int) (steps : Nat)
    (h : 2 ≤ steps) :
    figure_eight center radius_mm steps =
      Except.ok ((List.range steps).map
        (figureEightPoint center radius_mm steps)) := by
  apply figureEightGo_ok
  omega

/-- Every telemetry interaction of the center-resolution cascade is a map
parse. -/
theorem resolveCenter_events (e : DanceEnv) (size : Int) :
    ∀ ev ∈ (resolveCenter e size).2, ev = Event.parseMap := by
  unfold resolveCenter
  cases charger_position e.parseCharger with
  | some dock => simp
  | none =>
      cases vacuum_position e.parseVacuum with
      | some p => simp
      | none =>
          cases map_center e.parseMapCenter with
          | some c => simp
          | none => simp

/-- The preflight sequence never disconnects. -/
theorem disconnect_not_mem_preflight (enabled : Bool) (state : String) :
    Event.disconnect ∉ ensure_ready_for_goto enabled state := by
  unfold ensure_ready_for_goto
  split
  · simp
  · split <;> simp

/-- The waypoint loop never disconnects: its trace is made of map parses and
command sends only. -/
theorem disconnect_not_mem_danceLoop (e : DanceEnv) (arrival : Int)
    (waypoints : List Point) (i : Nat) :
    Event.disconnect ∉ (danceLoop e arrival waypoints i).1 := by
  induction waypoints generalizing i with
  | nil => simp [danceLoop]
  | cons wp rest ih =>
      obtain ⟨px, py⟩ := wp
      simp only [danceLoop]
      split
      · simpa using ih (i + 1)
      · split
        · simp
        · intro hmem
          simp only [List.mem_cons, List.mem_append, List.mem_replicate] at hmem
          rcases hmem with h | h | ⟨_, h⟩ | h
          · exact Event.noConfusion h
          · exact Event.noConfusion h
          · exact Event.noConfusion h
          · exact ih (i + 1) h

/-- A trace of the shape `connect :: (A ++ [disconnect])` with no disconnect
in `A` ends in a disconnect and contains exactly one. -/
theorem trace_disconnect_spec (A : List Event)
    (hA : Event.disconnect ∉ A) :
    (Event.connect :: (A ++ [Event.disconnect])).getLast? =
        some Event.disconnect ∧
      (Event.connect :: (A ++ [Event.disconnect])).count Event.disconnect = 1 := by
  constructor
  · rw [← List.cons_append]
    exact List.getLast?_concat _
  · rw [← List.cons_append, List.count_append]
    have h1 : (Event.connect :: A).count Event.disconnect = 0 := by
      rw [List.count_eq_zero]
      intro hmem
      rcases List.mem_cons.mp hmem with h | h
      · exact Event.noConfusion h
      · exact hA h
    simp [h1]

/-- For a nonnegative threshold the arrival test is exactly the squared
comparison. -/
theorem withinThreshold_eq_distSq (p q : Point) (thr : Int) (h : 0 ≤ thr) :
    withinThreshold p q thr = true ↔ distSq p q ≤ thr * thr := by
  simp [withinThreshold, h]

/-- The polling loop returns `true` exactly when some available sample in the
window qualifies. -/
theorem wait_until_near_true_iff (target : Point) (thr : Int)
    (parses : List (Option MapData)) :
    wait_until_near parses target thr = true ↔
      ∃ parse ∈ parses, ∃ p, vacuum_position parse = some p ∧
        withinThreshold p target thr = true := by
  induction parses with
  | nil => simp [wait_until_near, waitRun]
  | cons parse rest ih =>
      simp only [wait_until_near, waitRun] at ih ⊢
      cases hv : vacuum_position parse with
      | none => simp [hv, ih]
      | some pos =>
          by_cases hw : withinThreshold pos target thr = true
          · simp only [hv, hw, if_pos]
            constructor
            · intro _
              exact ⟨parse, List.mem_cons_self _ _, pos, hv, hw⟩
            · intro _
              trivial
          · simp only [hv, hw, if_neg, Bool.false_eq_true, not_false_iff, ih]
            constructor
            · rintro ⟨q, hq, p, hp, hwp⟩
              exact ⟨q, List.mem_cons_of_mem _ hq, p, hp, hwp⟩
            · rintro ⟨q, hq, p, hp, hwp⟩
              rcases List.mem_cons.mp hq with hq | hq
              · subst hq
                rw [hv] at hp
                cases hp
                exact absurd hwp hw
              · exact ⟨q, hq, p, hp, hwp⟩

-- ---------------------------------------------------------------------------
-- Claim theorems
-- ---------------------------------------------------------------------------

/-- C3: the arrival poller returns `true` iff some sample available before
the deadline lies within the (inclusive) threshold of the target; a first
qualifying sample returns `true` immediately with no further sampling;
an unavailable sample is inconclusive (the loop just retries); and the poller
returns `false` when no sample in the deadline window qualifies. -/
theorem wait_until_near_spec (target : Point) (thr : Int) (h : 0 ≤ thr) :
    (∀ parses, wait_until_near parses target thr = true ↔
        ∃ parse ∈ parses, ∃ p, vacuum_position parse = some p ∧
          distSq p target ≤ thr * thr)
    ∧ (∀ parse p rest, vacuum_position parse = some p →
        distSq p target ≤ thr * thr →
        waitRun (parse :: rest) target thr = (true, 1))
    ∧ (∀ parse rest, vacuum_position parse = none →
        wait_until_near (parse :: rest) target thr =
          wait_until_near rest target thr)
    ∧ (∀ parses, (∀ parse ∈ parses, ∀ p, vacuum_position parse = some p →
          ¬ distSq p target ≤ thr * thr) →
        wait_until_near parses target thr = false) := by
  have hiff : ∀ parses, wait_until_near parses target thr = true ↔
      ∃ parse ∈ parses, ∃ p, vacuum_position parse = some p ∧
        distSq p target ≤ thr * thr := by
    intro parses
    rw [wait_until_near_true_iff]
    constructor
    · rintro ⟨parse, hmem, p, hp, hw⟩
      exact ⟨parse, hmem, p, hp, (withinThreshold_eq_distSq p target thr h).mp hw⟩
    · rintro ⟨parse, hmem, p, hp, hd⟩
      exact ⟨parse, hmem, p, hp, (withinThreshold_eq_distSq p target thr h).mpr hd⟩
  refine ⟨hiff, ?_, ?_, ?_⟩
  · intro parse p rest hp hd
    have hw : withinThreshold p target thr = true :=
      (withinThreshold_eq_distSq p target thr h).mpr hd
    simp [waitRun, hp, hw]
  · intro parse rest hv
    simp [wait_until_near, waitRun, hv]
  · intro parses hall
    rw [← Bool.not_eq_true, hiff]
    rintro ⟨parse, hmem, p, hp, hd⟩
    exact hall parse hmem p hp hd

/-- Witness for C3: the spec's own example — target `(1000, 2000)`,
threshold `250`, first sample `(1100, 2100)` (distance ≈ 141.4) returns
`true` after consuming exactly one sample. -/
theorem wait_until_near_spec_witness :
    (0 : Int) ≤ 250
    ∧ waitRun [some (MapData.mk none (some ((1100 : Int), (2100 : Int))))]
        ((1000 : Int), (2000 : Int)) 250 = (true, 1) :=
  ⟨by decide,
   (wait_until_near_spec ((1000 : Int), (2000 : Int)) 250 (by decide)).2.1
     (some (MapData.mk none (some ((1100 : Int), (2100 : Int)))))
     ((1100 : Int), (2100 : Int)) [] rfl (by decide)⟩

/-- The beat/poll `parseMap` filler contributes no goto dispatches. -/
theorem gotoCount_replicate_parseMap (n : Nat) :
    (List.replicate n Event.parseMap).countP (fun ev =>
      match ev with
      | Event.send "APP_GOTO_TARGET" _ => true
      | _ => false) = 0 := by
  induction n with
  | zero => rfl
  | succ n ih => simp [List.replicate_succ, List.countP_cons, ih]

/-- C4: the waypoint loop's pre-check — a waypoint whose pre-check position is
within the arrival threshold is skipped (no goto dispatched, loop advances);
with a fixed current position and a 3-point sequence whose first point alone
is within threshold, exactly 2 goto commands are dispatched; when the
pre-check position is unavailable the goto is dispatched. -/
theorem danceLoop_precheck_spec (e : DanceEnv) (arrival : Int) :
    (∀ i px py rest p, vacuum_position (e.parsePre i) = some p →
        withinThreshold p (px, py) arrival = true →
        danceLoop e arrival ((px, py) :: rest) i =
          (Event.parseMap :: (danceLoop e arrival rest (i + 1)).1,
           (danceLoop e arrival rest (i + 1)).2))
    ∧ (∀ i px py rest, vacuum_position (e.parsePre i) = none →
        (danceLoop e arrival ((px, py) :: rest) i).1[1]? =
          some (Event.send "APP_GOTO_TARGET" [px, py]))
    ∧ (∀ pos q1 q2 q3,
        (∀ i, vacuum_position (e.parsePre i) = some pos) →
        (∀ i, e.gotoFails i = false) →
        withinThreshold pos q1 arrival = true →
        withinThreshold pos q2 arrival = false →
        withinThreshold pos q3 arrival = false →
        gotoCount (danceLoop e arrival [q1, q2, q3] 0).1 = 2) := by
  refine ⟨?_, ?_, ?_⟩
  · intro i px py rest p hp hw
    simp [danceLoop, hp, hw]
  · intro i px py rest hv
    simp only [danceLoop, hv]
    split
    · simp_all
    · split <;> simp
  · intro pos q1 q2 q3 hpre hok h1 h2 h3
    obtain ⟨a1, b1⟩ := q1
    obtain ⟨a2, b2⟩ := q2
    obtain ⟨a3, b3⟩ := q3
    simp only [danceLoop, hpre 0, hpre 1, hpre 2, h1, h2, h3, hok 1, hok 2,
      if_pos, if_neg, Bool.false_eq_true, not_false_iff]
    simp [gotoCount, List.countP_cons, List.countP_append,
      gotoCount_replicate_parseMap]

/-- Concrete oracle for the C4 witness: fixed current position `(0, 0)` on
every pre-check, reliable transport, no poll samples. -/
def ePos : DanceEnv where
  env := fun _ => none
  preflightEnabled := true
  statusState := ""
  parseCharger := none
  parseVacuum := none
  parseMapCenter := none
  parsePre := fun _ => some (MapData.mk none (some ((0 : Int), (0 : Int))))
  pollParses := fun _ => []
  gotoFails := fun _ => false
  rand := fun _ _ => 0

/-- Concrete oracle for the C4 witness: position never available. -/
def eNoPos : DanceEnv where
  env := fun _ => none
  preflightEnabled := true
  statusState := ""
  parseCharger := none
  parseVacuum := none
  parseMapCenter := none
  parsePre := fun _ => none
  pollParses := fun _ => []
  gotoFails := fun _ => false
  rand := fun _ _ => 0

/-- Witness for C4: with fixed position `(0,0)`, sequence
`[(0,0), (1000,0), (0,1000)]` and threshold `250`, the first waypoint is
skipped and exactly 2 gotos are dispatched; with position unavailable the
goto for `(50, 60)` is dispatched. -/
theorem danceLoop_precheck_spec_witness :
    gotoCount (danceLoop ePos 250
        [((0 : Int), (0 : Int)), (1000, 0), (0, 1000)] 0).1 = 2
    ∧ (danceLoop eNoPos 250 [((50 : Int), (60 : Int))] 0).1[1]? =
        some (Event.send "APP_GOTO_TARGET" [50, 60])
    ∧ danceLoop ePos 250 [((0 : Int), (0 : Int))] 0 =
        (Event.parseMap :: (danceLoop ePos 250 [] 1).1,
         (danceLoop ePos 250 [] 1).2) :=
  ⟨(danceLoop_precheck_spec ePos 250).2.2 ((0 : Int), (0 : Int))
      ((0 : Int), (0 : Int)) (1000, 0) (0, 1000)
      (fun _ => rfl) (fun _ => rfl) (by decide) (by decide) (by decide),
   (danceLoop_precheck_spec eNoPos 250).2.1 0 50 60 [] rfl,
   (danceLoop_precheck_spec ePos 250).1 0 0 0 [] ((0 : Int), (0 : Int))
      rfl (by decide)⟩

/-- C5: the dance origin cascade, evaluated on the clamped radius: dock
position (offset along Y by `buffer + clamped radius`, buffer defaulting to
300) first, else current robot position, else map-derived center, else the
static fallback; it always produces a point. -/
theorem origin_priority_spec (e : DanceEnv) (size size' : Int)
    (hsize : size' = clamp_radius (getenvInt e.env "MIN_DANCE_RADIUS_MM" 200)
      (getenvInt e.env "MAX_DANCE_RADIUS_MM" 1200) size) :
    (∀ dock, charger_position e.parseCharger = some dock →
        (resolveCenter e size').1 =
          (dock.1, dock.2 + (getenvInt e.env "DOCK_BUFFER_MM" 300 + size')))
    ∧ (charger_position e.parseCharger = none →
        ∀ p, vacuum_position e.parseVacuum = some p →
          (resolveCenter e size').1 = p)
    ∧ (charger_position e.parseCharger = none →
        vacuum_position e.parseVacuum = none →
        ∀ c, map_center e.parseMapCenter = some c →
          (resolveCenter e size').1 = c)
    ∧ (charger_position e.parseCharger = none →
        vacuum_position e.parseVacuum = none →
        map_center e.parseMapCenter = none →
        (resolveCenter e size').1 =
          (getenvInt e.env "DEFAULT_CENTER_X" 0,
           getenvInt e.env "DEFAULT_CENTER_Y" 0)) := by
  refine ⟨?_, ?_, ?_, ?_⟩
  · intro dock hdock
    simp [resolveCenter, hdock, offset_center_from_dock]
  · intro hc p hp
    simp [resolveCenter, hc, hp]
  · intro hc hv c hm
    simp [resolveCenter, hc, hv, hm]
  · intro hc hv hm
    simp [resolveCenter, hc, hv, hm]

/-- Concrete oracle for the C5 witness: dock at `(100, 200)`. -/
def eDock : DanceEnv where
  env := fun _ => none
  preflightEnabled := true
  statusState := ""
  parseCharger := some (MapData.mk (some ((100 : Int), (200 : Int))) none)
  parseVacuum := none
  parseMapCenter := none
  parsePre := fun _ => none
  pollParses := fun _ => []
  gotoFails := fun _ => false
  rand := fun _ _ => 0

/-- Witness for C5: with the dock at `(100, 200)`, requested size 5000
(clamped to 1200) and default buffer 300, the origin is
`(100, 200 + 300 + 1200)`; with every source disabled, the origin is the
static fallback. -/
theorem origin_priority_spec_witness :
    ((1200 : Int) = clamp_radius (getenvInt eDock.env "MIN_DANCE_RADIUS_MM" 200)
        (getenvInt eDock.env "MAX_DANCE_RADIUS_MM" 1200) 5000)
    ∧ (resolveCenter eDock 1200).1 =
        ((100 : Int), (200 : Int) + (getenvInt eDock.env "DOCK_BUFFER_MM" 300 + 1200))
    ∧ (resolveCenter eNoPos 1200).1 =
        (getenvInt eNoPos.env "DEFAULT_CENTER_X" 0,
         getenvInt eNoPos.env "DEFAULT_CENTER_Y" 0) :=
  ⟨by decide,
   (origin_priority_spec eDock 5000 1200 (by decide)).1
     ((100 : Int), (200 : Int)) rfl,
   (origin_priority_spec eNoPos 5000 1200 (by decide)).2.2.2 rfl rfl rfl⟩

/-- C10: with dock, robot position and map center all unavailable and
`DEFAULT_CENTER_X`/`DEFAULT_CENTER_Y` unset, the dance origin cascade yields
exactly `(0, 0)` — not the `(32000, 27000)` fallback the `where` command
uses — so the waypoint sequence is generated around the map origin. -/
theorem dance_fallback_center_spec (e : DanceEnv) (size : Int)
    (hc : charger_position e.parseCharger = none)
    (hv : vacuum_position e.parseVacuum = none)
    (hm : map_center e.parseMapCenter = none)
    (hx : e.env "DEFAULT_CENTER_X" = none)
    (hy : e.env "DEFAULT_CENTER_Y" = none) :
    (resolveCenter e size).1 = ((0 : Int), (0 : Int))
    ∧ whereFallbackCenter e.env = ((32000 : Int), (27000 : Int))
    ∧ (resolveCenter e size).1 ≠ whereFallbackCenter e.env := by
  have h1 : (resolveCenter e size).1 = ((0 : Int), (0 : Int)) := by
    simp [resolveCenter, hc, hv, hm, getenvInt, hx, hy]
  have h2 : whereFallbackCenter e.env = ((32000 : Int), (27000 : Int)) := by
    simp [whereFallbackCenter, getenvInt, hx, hy]
  refine ⟨h1, h2, ?_⟩
  rw [h1, h2]
  decide

/-- Point 0 of `circle` is exactly `(cx + r, cy)`: at `t = 0` the cosine is 1
and the sine 0, and truncation of an integer is the identity. -/
theorem circlePoint_zero (center : Point) (radius_mm : Int) (steps : Nat) :
    circlePoint center radius_mm steps 0 = (center.1 + radius_mm, center.2) := by
  unfold circlePoint
  simp only [Nat.cast_zero, mul_zero, zero_div, Real.cos_zero, Real.sin_zero,
    mul_one, mul_zero, add_zero]
  rw [← Int.cast_add, truncInt_intCast, truncInt_intCast]

/-- C8 (amended): for all `steps ≥ 1`, `circle` returns exactly `steps`
points, point `i` being the claimed trigonometric formula truncated toward
zero, and point 0 being exactly `(cx + r, cy)`; the generator appends no
closing duplicate (every index follows the open parametrization, though for
degenerate radii truncated points at distinct indices may coincide). -/
theorem circle_spec (center : Point) (radius_mm : Int) (steps : Nat)
    (h : 1 ≤ steps) :
    (circle center radius_mm steps).length = steps
    ∧ (∀ i, i < steps →
        (circle center radius_mm steps)[i]? =
          some (truncInt (center.1 + radius_mm *
              Real.cos (2 * Real.pi * i / steps)),
            truncInt (center.2 + radius_mm *
              Real.sin (2 * Real.pi * i / steps))))
    ∧ (circle center radius_mm steps)[0]? =
        some (center.1 + radius_mm, center.2) := by
  have hidx : ∀ i, i < steps →
      (circle center radius_mm steps)[i]? =
        some (circlePoint center radius_mm steps i) := by
    intro i hi
    simp [circle, List.getElem?_map, List.getElem?_range hi]
  refine ⟨by simp [circle], ?_, ?_⟩
  · intro i hi
    rw [hidx i hi]
    rfl
  · rw [hidx 0 h, circlePoint_zero]

/-- Witness for C8 (amended) at `center = (0,0)`, `r = 5`, `steps = 1`. -/
theorem circle_spec_witness :
    1 ≤ 1 ∧ (circle ((0 : Int), (0 : Int)) 5 1).length = 1 :=
  ⟨by decide, (circle_spec ((0 : Int), (0 : Int)) 5 1 (by decide)).1⟩

/-- C8 (counterexample): at radius 0 (and `steps = 2`) every truncated point
is the center, so the first point *is* repeated at the end — the claim's
universal "the first point is not repeated at the end" fails here. -/
theorem circle_closes_at_zero_radius :
    circle ((0 : Int), (0 : Int)) 0 2 =
        [((0 : Int), (0 : Int)), ((0 : Int), (0 : Int))]
    ∧ (circle ((0 : Int), (0 : Int)) 0 2).getLast? =
        (circle ((0 : Int), (0 : Int)) 0 2).head? := by
  have hpt : ∀ i, circlePoint ((0 : Int), (0 : Int)) 0 2 i =
      ((0 : Int), (0 : Int)) := by
    intro i
    unfold circlePoint
    simp [truncInt]
  have hlist : circle ((0 : Int), (0 : Int)) 0 2 =
      [((0 : Int), (0 : Int)), ((0 : Int), (0 : Int))] := by
    have hr : List.range 2 = [0, 1] := rfl
    simp only [circle, hr, List.map_cons, List.map_nil, hpt]
  refine ⟨hlist, ?_⟩
  rw [hlist]
  rfl

/-- C7: for every `steps ≥ 2`, `figure_eight` is well defined — the
division-by-zero branch is unreachable — and yields exactly `steps` points
following `x = cx + r·sin t`, `y = cy + r·sin t·cos t` with
`t = 2π·i/(steps−1)` truncated to integers; at `steps = 1` the first
iteration raises Python's division-by-zero error (precondition violation). -/
theorem figure_eight_spec (center : Point) (radius_mm : Int) :
    (∀ steps : Nat, 2 ≤ steps →
        ∃ l, figure_eight center radius_mm steps = Except.ok l
          ∧ l.length = steps
          ∧ ∀ i, i < steps → l[i]? =
              some (truncInt (center.1 + radius_mm *
                  Real.sin (2 * Real.pi * i / ((steps : ℝ) - 1))),
                truncInt (center.2 + radius_mm *
                  Real.sin (2 * Real.pi * i / ((steps : ℝ) - 1)) *
                  Real.cos (2 * Real.pi * i / ((steps : ℝ) - 1)))))
    ∧ figure_eight center radius_mm 1 = Except.error "float division by zero" := by
  constructor
  · intro steps hsteps
    refine ⟨(List.range steps).map (figureEightPoint center radius_mm steps),
      figure_eight_ok center radius_mm steps hsteps, by simp, ?_⟩
    intro i hi
    rw [List.getElem?_map, List.getElem?_range hi]
    rfl
  · rfl

/-- Witness for C7 at `center = (0,0)`, `r = 800`, `steps = 2`. -/
theorem figure_eight_spec_witness :
    2 ≤ 2 ∧ ∃ l, figure_eight ((0 : Int), (0 : Int)) 800 2 = Except.ok l
      ∧ l.length = 2
      ∧ ∀ i : Nat, i < 2 → l[i]? =
          some (truncInt (((0 : Int) : ℝ) + ((800 : Int) : ℝ) *
              Real.sin (2 * Real.pi * i / (((2 : ℕ) : ℝ) - 1))),
            truncInt (((0 : Int) : ℝ) + ((800 : Int) : ℝ) *
              Real.sin (2 * Real.pi * i / (((2 : ℕ) : ℝ) - 1)) *
              Real.cos (2 * Real.pi * i / (((2 : ℕ) : ℝ) - 1)))) :=
  ⟨by decide,
   (figure_eight_spec ((0 : Int), (0 : Int)) 800).1 2 (by decide)⟩

/-- Witness for C10: the all-unavailable oracle. -/
theorem dance_fallback_center_spec_witness :
    (resolveCenter eNoPos 400).1 = ((0 : Int), (0 : Int))
    ∧ whereFallbackCenter eNoPos.env = ((32000 : Int), (27000 : Int))
    ∧ (resolveCenter eNoPos 400).1 ≠ whereFallbackCenter eNoPos.env :=
  dance_fallback_center_spec eNoPos 400 rfl rfl rfl rfl rfl

/-- C6: `_clamp_radius` equals `max(lo, min(x, hi))`; under `lo ≤ hi` the
result lies in `[lo, hi]`, the two out-of-range boundary inputs clamp to the
respective bounds, and clamping is idempotent; the function is total. -/
theorem clamp_radius_spec (lo hi : Int) (h : lo ≤ hi) (x : Int) :
    clamp_radius lo hi x = max lo (min x hi)
    ∧ lo ≤ clamp_radius lo hi x
    ∧ clamp_radius lo hi x ≤ hi
    ∧ clamp_radius lo hi (lo - 1) = lo
    ∧ clamp_radius lo hi (hi + 1) = hi
    ∧ clamp_radius lo hi (clamp_radius lo hi x) = clamp_radius lo hi x := by
  unfold clamp_radius
  refine ⟨rfl, ?_, ?_, ?_, ?_, ?_⟩ <;> omega

/-- Witness for C6 at the configured defaults `lo = 200`, `hi = 1200`,
`x = -100`. -/
theorem clamp_radius_spec_witness :
    (200 : Int) ≤ 1200
    ∧ (clamp_radius 200 1200 (-100) = max 200 (min (-100) 1200)
       ∧ (200 : Int) ≤ clamp_radius 200 1200 (-100)
       ∧ clamp_radius 200 1200 (-100) ≤ 1200
       ∧ clamp_radius 200 1200 (200 - 1) = 200
       ∧ clamp_radius 200 1200 (1200 + 1) = 1200
       ∧ clamp_radius 200 1200 (clamp_radius 200 1200 (-100)) =
           clamp_radius 200 1200 (-100)) :=
  ⟨by decide, clamp_radius_spec 200 1200 (by decide) (-100)⟩

/-- C9 (counterexample): at half-extent `0` all five points of `square`
coincide, so the four corners are not distinct — the claim as stated, which
asserts distinct corners for every half-extent, fails at `h = 0`. -/
theorem square_corners_not_distinct_at_zero :
    square ((0 : Int), (0 : Int)) 0 =
        [((0 : Int), (0 : Int)), (0, 0), (0, 0), (0, 0), (0, 0)]
    ∧ (square ((0 : Int), (0 : Int)) 0)[0]? =
        (square ((0 : Int), (0 : Int)) 0)[1]? := by
  constructor
  · rfl
  · rfl

/-- C9 (amended): `square` always returns exactly the five listed points —
the four axis-aligned corners of side `2·half_mm` around the center, bottom-
left first, then closing back to the first corner (`points[0] = points[4]`);
whenever `half_mm ≠ 0` the four corners are pairwise distinct. -/
theorem square_spec (center : Point) (half_mm : Int) :
    square center half_mm =
        [(center.1 - half_mm, center.2 - half_mm),
         (center.1 + half_mm, center.2 - half_mm),
         (center.1 + half_mm, center.2 + half_mm),
         (center.1 - half_mm, center.2 + half_mm),
         (center.1 - half_mm, center.2 - half_mm)]
    ∧ (square center half_mm).length = 5
    ∧ (square center half_mm)[0]? = (square center half_mm)[4]?
    ∧ (half_mm ≠ 0 →
        (center.1 - half_mm, center.2 - half_mm) ≠
          (center.1 + half_mm, center.2 - half_mm)
        ∧ (center.1 - half_mm, center.2 - half_mm) ≠
          (center.1 + half_mm, center.2 + half_mm)
        ∧ (center.1 - half_mm, center.2 - half_mm) ≠
          (center.1 - half_mm, center.2 + half_mm)
        ∧ (center.1 + half_mm, center.2 - half_mm) ≠
          (center.1 + half_mm, center.2 + half_mm)
        ∧ (center.1 + half_mm, center.2 - half_mm) ≠
          (center.1 - half_mm, center.2 + half_mm)
        ∧ (center.1 + half_mm, center.2 + half_mm) ≠
          (center.1 - half_mm, center.2 + half_mm)) := by
  refine ⟨rfl, rfl, rfl, fun hne => ?_⟩
  refine ⟨?_, ?_, ?_, ?_, ?_, ?_⟩ <;>
    · intro hcontra
      rw [Prod.ext_iff] at hcontra
      omega

/-- Witness for C9 (amended) at center `(1000, 2000)`, half-extent `600`. -/
theorem square_spec_witness :
    square ((1000 : Int), (2000 : Int)) 600 =
        [((1000 : Int) - 600, (2000 : Int) - 600),
         ((1000 : Int) + 600, (2000 : Int) - 600),
         ((1000 : Int) + 600, (2000 : Int) + 600),
         ((1000 : Int) - 600, (2000 : Int) + 600),
         ((1000 : Int) - 600, (2000 : Int) - 600)]
    ∧ ((600 : Int) ≠ 0
       ∧ ((1000 : Int) - 600, (2000 : Int) - 600) ≠
           ((1000 : Int) + 600, (2000 : Int) - 600)) :=
  ⟨(square_spec ((1000 : Int), (2000 : Int)) 600).1,
   by decide,
   ((square_spec ((1000 : Int), (2000 : Int)) 600).2.2.2 (by decide)).1⟩

/-- C1 (counterexample): running `dance` with the unknown pattern `"waltz"`
does surface the unknown-pattern error, but the trace opens with the
transport connection and contains telemetry (map-parse) requests — all before
the rejection is surfaced — contradicting the claim that no connection is
opened and no telemetry request is sent before the rejection. -/
theorem dance_unknown_pattern_counterexample :
    (dance eNoPos "waltz" 400 600).2 = some DanceError.unknownPattern
    ∧ (dance eNoPos "waltz" 400 600).1.head? = some Event.connect
    ∧ Event.parseMap ∈ (dance eNoPos "waltz" 400 600).1 := by
  refine ⟨?_, ?_, ?_⟩ <;> decide

/-- C1 (amended): for every pattern name outside the five known patterns,
`dance` surfaces the unknown-pattern error to the caller and never dispatches
any command (no goto, wake, start or pause is ever sent) — but only after the
transport connection has been opened and telemetry requested for origin
resolution (the trace begins with the connect). -/
theorem dance_unknown_pattern_spec (e : DanceEnv) (pattern : String)
    (size beat_ms : Int) (h : pattern ∉ knownPatterns) :
    (dance e pattern size beat_ms).2 = some DanceError.unknownPattern
    ∧ (∀ name payload,
        Event.send name payload ∉ (dance e pattern size beat_ms).1)
    ∧ (dance e pattern size beat_ms).1.head? = some Event.connect := by
  have hne : pattern ≠ "circle" ∧ pattern ≠ "square" ∧ pattern ≠ "figure8" ∧
      pattern ≠ "lissajous" ∧ pattern ≠ "spin_crazy" := by
    simp only [knownPatterns, List.mem_cons, List.not_mem_nil, or_false,
      not_or] at h
    exact h
  obtain ⟨h1, h2, h3, h4, h5⟩ := hne
  have hdp : ∀ c s, dancePattern e pattern c s = none := by
    intro c s
    simp [dancePattern, h1, h2, h3, h4, h5]
  refine ⟨by simp [dance, hdp], ?_, by simp [dance, hdp]⟩
  intro name payload hmem
  simp only [dance, hdp] at hmem
  rcases List.mem_cons.mp hmem with hh | hh
  · exact Event.noConfusion hh
  · rcases List.mem_append.mp hh with hh | hh
    · exact Event.noConfusion (resolveCenter_events e _ _ hh)
    · rcases List.mem_singleton.mp hh with hh
      exact Event.noConfusion hh

/-- Witness for C1 (amended) at the concrete unknown pattern `"tango"`. -/
theorem dance_unknown_pattern_spec_witness :
    "tango" ∉ knownPatterns
    ∧ ((dance ePos "tango" 400 600).2 = some DanceError.unknownPattern
       ∧ (∀ name payload,
            Event.send name payload ∉ (dance ePos "tango" 400 600).1)
       ∧ (dance ePos "tango" 400 600).1.head? = some Event.connect) :=
  ⟨by decide, dance_unknown_pattern_spec ePos "tango" 400 600 (by decide)⟩

/-- C2: whatever the outcome of a dance run — success, unknown-pattern
rejection, or a transport error raised by a goto dispatch — the trace ends
with the transport disconnection, and the disconnection happens exactly once:
no exit path of the dance body skips it. -/
theorem dance_always_disconnects (e : DanceEnv) (pattern : String)
    (size beat_ms : Int) :
    (dance e pattern size beat_ms).1.getLast? = some Event.disconnect
    ∧ (dance e pattern size beat_ms).1.count Event.disconnect = 1 := by
  simp only [dance]
  split
  · -- unknown-pattern branch
    apply trace_disconnect_spec
    intro hmem
    exact Event.noConfusion (resolveCenter_events e _ _ hmem)
  · -- known-pattern branch: center events ++ preflight ++ loop ++ [disconnect]
    rename_i waypoints _
    apply trace_disconnect_spec
    intro hmem
    rcases List.mem_append.mp hmem with hh | hh
    · rcases List.mem_append.mp hh with hh | hh
      · exact Event.noConfusion (resolveCenter_events e _ _ hh)
      · exact disconnect_not_mem_preflight _ _ hh
    · exact disconnect_not_mem_danceLoop e _ waypoints 0 hh

end VacuumBallet
